import Mathlib

/-!
Shallow embedding of `src/velodyne_pointcloud/src/lib/rawdata.cc`
(namespace `velodyne_rawdata`), the Velodyne LIDAR raw-packet decoder.

Floating-point (`float`/`double`) arithmetic of the source is modelled
over `ℚ`; machine integers are modelled as `ℕ`/`ℤ` with explicit
reductions (`% 256`, `% 65536`) where the source reads fixed-width
fields.  C's truncated integer `%` is `cRem`, C's `round` (half away
from zero) is `roundQ`, C's `double → int` conversion is `truncQ`,
C's `fmod` is `fmodQ`.  The fixed wire-format and device-profile
constants live in the repository's header `rawdata.h`, which is not
part of `src/`; those are modelled from the spec (marked below).
-/

namespace Velodyne

/-- C conversion `(int)x` for a `double x`: truncation toward zero. -/
def truncQ (q : ℚ) : ℤ := if 0 ≤ q then ⌊q⌋ else -⌊-q⌋

/-- C `round`: nearest integer, halves away from zero. -/
def roundQ (q : ℚ) : ℤ := if 0 ≤ q then ⌊q + 1/2⌋ else -⌊-q + 1/2⌋

/-- C integer remainder `a % n` (sign of the dividend, for `n > 0`). -/
def cRem (a n : ℤ) : ℤ := if 0 ≤ a then a % n else -((-a) % n)

/-- C `fmod x y`: `x - trunc(x/y) * y`. -/
def fmodQ (x y : ℚ) : ℚ := x - y * (truncQ (x / y) : ℚ)

/-- The exact rational value of the IEEE-754 double `M_PI`. -/
def M_PI : ℚ := 884279719003555 / 281474976710656

/-- Blocks per raw packet (the source builds its 12-row timing table
for the packet's firing cycles and iterates `BLOCKS_PER_PACKET`). -/
def BLOCKS_PER_PACKET : ℕ := 12

/-- Channel slots per block (the source's inner legacy loop and the
32-column timing table). -/
def SCANS_PER_BLOCK : ℕ := 32

/-- Bytes per channel slot: 2-byte distance + 1-byte intensity. -/
def RAW_SCAN_SIZE : ℕ := 3

/-- Modelled from the spec: the single expected upper-bank block-header
marker of the VLP16/VLP32 wire format (`UPPER_BANK` in the missing
header `rawdata.h`). -/
def UPPER_BANK : ℕ := 0xeeff

/-- Modelled from the spec: the lower-bank block-header marker of the
dual-bank legacy layout (`LOWER_BANK` in the missing header). -/
def LOWER_BANK : ℕ := 0xddff

/-- Modelled from the spec: legacy distance resolution (packet distance
units to meters), `DISTANCE_RESOLUTION` of the missing header. -/
def DISTANCE_RESOLUTION : ℚ := 0.002

/-- Device profile constants (`vlp_spec_` of the source; the struct
lives in the missing header).  Durations are in microseconds. -/
structure VlpSpec where
  distance_resolution : ℚ
  firing_duration : ℚ
  firing_seq_duration : ℚ
  block_duration : ℚ
  lasers_per_firing : ℕ
  firing_seqs_per_block : ℕ
  lasers_per_firing_seq : ℕ
deriving DecidableEq

/-- Modelled from the spec: the VLP16 profile constants of the missing
header (vendor firing timings; 2 firing sequences of 16 lasers per
block, one laser per firing). -/
def VLP_16_SPEC : VlpSpec :=
  { distance_resolution := 0.002
    firing_duration := 2.304
    firing_seq_duration := 55.296
    block_duration := 110.592
    lasers_per_firing := 1
    firing_seqs_per_block := 2
    lasers_per_firing_seq := 16 }

/-- Modelled from the spec: the VLP32 profile constants of the missing
header (one firing sequence of 32 lasers per block, lasers fire in
pairs). -/
def VLP_32_SPEC : VlpSpec :=
  { distance_resolution := 0.004
    firing_duration := 2.304
    firing_seq_duration := 55.296
    block_duration := 55.296
    lasers_per_firing := 2
    firing_seqs_per_block := 1
    lasers_per_firing_seq := 32 }

/-- Per-laser calibration record (`velodyne_pointcloud::LaserCorrection`). -/
structure LaserCorrection where
  cos_vert_correction : ℚ
  sin_vert_correction : ℚ
  cos_rot_correction : ℚ
  sin_rot_correction : ℚ
  horiz_offset_correction : ℚ
  vert_offset_correction : ℚ
  dist_correction : ℚ
  two_pt_correction_available : Bool
  dist_correction_x : ℚ
  dist_correction_y : ℚ
  min_intensity : ℚ
  max_intensity : ℚ
  focal_distance : ℚ
  focal_slope : ℚ
  laser_ring : ℕ
deriving DecidableEq

/-- The decoder configuration fields the per-packet path reads
(`config_.min_range`, `max_range`, `min_angle`, `max_angle`; the two
angles are C `int`s in hundredths of a degree). -/
structure Config where
  min_range : ℚ
  max_range : ℚ
  min_angle : ℤ
  max_angle : ℤ
deriving DecidableEq

/-- One fixed-size block of a raw packet: 2-byte header, 2-byte
rotation, and a byte array of channel data (modelled as a function from
byte index; reads reduce mod 256 / mod 65536 for the fixed widths). -/
structure RawBlock where
  header : ℕ
  rotation : ℕ
  data : ℕ → ℕ

/-- A raw packet with its arrival timestamp (seconds, modelled as ℚ). -/
structure VelodynePacket where
  stamp : ℚ
  blocks : ℕ → RawBlock

/-- An output point as the source appends it (`VPoint`): coordinates,
clamped intensity, absolute time, output channel id. -/
structure VPoint where
  x : ℚ
  y : ℚ
  z : ℚ
  intensity : ℚ
  time : ℚ
  laser_id : ℕ
deriving DecidableEq

/-- The decoder instance state after `setup` (fields of `RawData`). -/
structure DecoderState where
  config : Config
  calibration : ℕ → LaserCorrection
  cos_rot_table : ℤ → ℚ
  sin_rot_table : ℤ → ℚ
  vlp_spec : VlpSpec
  timing_offsets : List (List ℚ)
  is_vlp : Bool

/-- The 16-bit header field of block `b`. -/
def headerOf (pkt : VelodynePacket) (b : ℕ) : ℕ := (pkt.blocks b).header % 65536

/-- The 16-bit rotation field of block `b`. -/
def rotationOf (pkt : VelodynePacket) (b : ℕ) : ℕ := (pkt.blocks b).rotation % 65536

/-- One data byte of block `b`. -/
def dataByte (pkt : VelodynePacket) (b k : ℕ) : ℕ := (pkt.blocks b).data k % 256

/-- The little-endian 16-bit distance value at byte offset `k`
(`union two_bytes` in the source). -/
def rawDistVal (pkt : VelodynePacket) (b k : ℕ) : ℕ :=
  dataByte pkt b k + 256 * dataByte pkt b (k + 1)

/-- The azimuth window test both decode paths guard point production
with (the identical conditions at rawdata.cc:202-207 and 392-397). -/
def azimuthInFov (min_angle max_angle a : ℤ) : Bool :=
  (decide (a ≥ min_angle) && decide (a ≤ max_angle) && decide (min_angle < max_angle)) ||
    (decide (min_angle > max_angle) && (decide (a ≤ max_angle) || decide (a ≥ min_angle)))

/-- Modelled from the spec: `pointInRange` of the missing header — keep
the point iff `min_range ≤ distance ≤ max_range` (inclusive bounds). -/
def pointInRange (cfg : Config) (distance : ℚ) : Bool :=
  decide (cfg.min_range ≤ distance) && decide (distance ≤ cfg.max_range)

/-- The two-point distance-correction deltas (zero when the calibration
flag is unavailable), rawdata.cc:245-258 and 437-450. -/
def distanceCorrXY (c : LaserCorrection) (xx yy : ℚ) : ℚ × ℚ :=
  if c.two_pt_correction_available then
    ((c.dist_correction - c.dist_correction_x) * (xx - 2.4) / (25.04 - 2.4)
        + c.dist_correction_x - c.dist_correction,
      (c.dist_correction - c.dist_correction_y) * (yy - 1.93) / (25.04 - 1.93)
        + c.dist_correction_y - c.dist_correction)
  else (0, 0)

/-- The shared position pipeline producing the remapped output
coordinates `(x_coord, y_coord, z_coord)` from the trig-table values at
the azimuth and the corrected distance (rawdata.cc:211-288, 403-480). -/
def positionXYZ (c : LaserCorrection) (cosAz sinAz distance : ℚ) : ℚ × ℚ × ℚ :=
  let cos_rot_angle := cosAz * c.cos_rot_correction + sinAz * c.sin_rot_correction
  let sin_rot_angle := sinAz * c.cos_rot_correction - cosAz * c.sin_rot_correction
  let xy_distance := distance * c.cos_vert_correction
      - c.vert_offset_correction * c.sin_vert_correction
  let xx := |xy_distance * sin_rot_angle - c.horiz_offset_correction * cos_rot_angle|
  let yy := |xy_distance * cos_rot_angle + c.horiz_offset_correction * sin_rot_angle|
  let dc := distanceCorrXY c xx yy
  let distance_x := distance + dc.1
  let xyd_x := distance_x * c.cos_vert_correction
      - c.vert_offset_correction * c.sin_vert_correction
  let x := xyd_x * sin_rot_angle - c.horiz_offset_correction * cos_rot_angle
  let distance_y := distance + dc.2
  let xyd_y := distance_y * c.cos_vert_correction
      - c.vert_offset_correction * c.sin_vert_correction
  let y := xyd_y * cos_rot_angle + c.horiz_offset_correction * sin_rot_angle
  let z := distance_y * c.sin_vert_correction + c.vert_offset_correction * c.cos_vert_correction
  (y, -x, z)

/-- The intensity-calibration focal offset, `256 (1 - fd/13100)²`. -/
def focalOffset (c : LaserCorrection) : ℚ :=
  256 * (1 - c.focal_distance / 13100) * (1 - c.focal_distance / 13100)

/-- The final clamp of the computed intensity (`< min` then `> max`). -/
def clampIntensity (c : LaserCorrection) (i : ℚ) : ℚ :=
  let i1 := if i < c.min_intensity then c.min_intensity else i
  if i1 > c.max_intensity then c.max_intensity else i1

/-- Legacy-path intensity, rawdata.cc:295-304: the quadratic distance
term divides with an explicit `float` cast, `(1 - d/65535)` over ℚ. -/
def intensityLegacy (c : LaserCorrection) (rawI d : ℕ) : ℚ :=
  clampIntensity c ((rawI : ℚ) + c.focal_slope *
    |focalOffset c - 256 * (1 - (d : ℚ) / 65535) * (1 - (d : ℚ) / 65535)|)

/-- VLP-path intensity, rawdata.cc:486-495: `tmp.uint/65535` there is C
integer division (no cast), so the whole quadratic term is the integer
`256 * (1 - d / 65535)²`. -/
def intensityVlp (c : LaserCorrection) (rawI d : ℕ) : ℚ :=
  clampIntensity c ((rawI : ℚ) + c.focal_slope *
    |focalOffset c - ((256 * (1 - ((d / 65535 : ℕ) : ℤ)) * (1 - ((d / 65535 : ℕ) : ℤ)) : ℤ) : ℚ)|)

/-- The raw inter-block azimuth difference computed at every non-final
block, `(36000 + next.rotation - rotation) % 36000` with C's `%`
(rawdata.cc:367). -/
def blockDiffRaw (pkt : VelodynePacket) (b : ℕ) : ℤ :=
  cRem (36000 + (rotationOf pkt (b + 1) : ℤ) - (rotationOf pkt b : ℤ)) 36000

/-- The value of the mutable `last_azimuth_diff` on entry to block `b`
(starting at 0; every block `< BLOCKS_PER_PACKET - 1` overwrites it
with its own computed diff). -/
def lastDiffAt (pkt : VelodynePacket) : ℕ → ℚ
  | 0 => 0
  | b + 1 => if b < BLOCKS_PER_PACKET - 1 then (blockDiffRaw pkt b : ℚ) else lastDiffAt pkt b

/-- The `azimuth_diff` the VLP path uses at block `b` (the computed
diff, or the previous one for the final block), rawdata.cc:366-372. -/
def azimuthDiff (pkt : VelodynePacket) (b : ℕ) : ℚ :=
  if b < BLOCKS_PER_PACKET - 1 then (blockDiffRaw pkt b : ℚ) else lastDiffAt pkt b

/-- The per-laser firing offset `(laser / lasers_per_firing) *
firing_duration` (C integer division), rawdata.cc:385. -/
def vlpFiringOffset (sp : VlpSpec) (laser : ℕ) : ℚ :=
  ((laser / sp.lasers_per_firing : ℕ) : ℚ) * sp.firing_duration

/-- The corrected azimuth (the rotation-table index of the VLP path):
interpolate, C-`round`, then C-`% 36000` (rawdata.cc:385-388). -/
def vlpAzimuthCorrected (sp : VlpSpec) (pkt : VelodynePacket) (b s laser : ℕ) : ℤ :=
  cRem (roundQ ((rotationOf pkt b : ℚ) +
    azimuthDiff pkt b * (vlpFiringOffset sp laser + (s : ℚ) * sp.firing_seq_duration)
      / sp.block_duration)) 36000

/-- The point the VLP loop body produces (or not) at block `b`, firing
sequence `s`, in-sequence laser `laser` (rawdata.cc:374-518). -/
def vlpPointAt (st : DecoderState) (pkt : VelodynePacket) (b s laser : ℕ) : Option VPoint :=
  let c := st.calibration laser
  let k := (s * st.vlp_spec.lasers_per_firing_seq + laser) * RAW_SCAN_SIZE
  let d := rawDistVal pkt b k
  let az := vlpAzimuthCorrected st.vlp_spec pkt b s laser
  if azimuthInFov st.config.min_angle st.config.max_angle az then
    let distance := (d : ℚ) * st.vlp_spec.distance_resolution + c.dist_correction
    let xyz := positionXYZ c (st.cos_rot_table az) (st.sin_rot_table az) distance
    let inten := intensityVlp c (dataByte pkt b (k + 2)) d
    if pointInRange st.config distance then
      let pt_time := if st.timing_offsets.isEmpty then pkt.stamp
        else pkt.stamp + (st.timing_offsets.getD b []).getD s 0
      some ⟨xyz.1, xyz.2.1, xyz.2.2, inten, pt_time, c.laser_ring⟩
    else none
  else none

/-- All points of block `b` in the VLP path (firing sequences then
lasers, in loop order). -/
def vlpBlockPoints (st : DecoderState) (pkt : VelodynePacket) (b : ℕ) : List VPoint :=
  (List.range st.vlp_spec.firing_seqs_per_block).flatMap fun s =>
    (List.range st.vlp_spec.lasers_per_firing_seq).filterMap fun laser =>
      vlpPointAt st pkt b s laser

/-- The accumulated azimuth sweep `slice_angle`: the sum of the raw
diffs of the non-final blocks (rawdata.cc:368). -/
def sliceAngle (pkt : VelodynePacket) : ℚ :=
  (((List.range (BLOCKS_PER_PACKET - 1)).map fun b => (blockDiffRaw pkt b : ℚ))).sum

/-- The VLP block loop from block `b` with `fuel` blocks left: the
header check aborts the whole call with `-1` (points of earlier blocks
were already appended by the caller), otherwise the block's points are
appended and the loop continues; falling off the loop returns the
accumulated `slice_angle` (rawdata.cc:348-523). -/
def unpackVlpAux (st : DecoderState) (pkt : VelodynePacket) : ℕ → ℕ → List VPoint × ℚ
  | 0, _ => ([], sliceAngle pkt)
  | fuel + 1, b =>
    if headerOf pkt b ≠ UPPER_BANK then ([], -1)
    else
      let rest := unpackVlpAux st pkt fuel (b + 1)
      (vlpBlockPoints st pkt b ++ rest.1, rest.2)

/-- `unpack_vlp`: the appended points and the return value. -/
def unpack_vlp (st : DecoderState) (pkt : VelodynePacket) : List VPoint × ℚ :=
  unpackVlpAux st pkt BLOCKS_PER_PACKET 0

/-- The legacy-path rotation-table index of block `b`: the raw 16-bit
rotation used directly, with no reduction (rawdata.cc:218-223). -/
def legacyRotIndex (pkt : VelodynePacket) (b : ℕ) : ℤ := (rotationOf pkt b : ℤ)

/-- The point the legacy loop body produces (or not) at block `b`,
channel slot `j` (rawdata.cc:175-322). -/
def legacyPointAt (st : DecoderState) (pkt : VelodynePacket) (b j : ℕ) : Option VPoint :=
  let bank_origin := if headerOf pkt b = LOWER_BANK then 32 else 0
  let c := st.calibration (j + bank_origin)
  let k := j * RAW_SCAN_SIZE
  let d := rawDistVal pkt b k
  let az := legacyRotIndex pkt b
  if azimuthInFov st.config.min_angle st.config.max_angle az then
    let distance := (d : ℚ) * DISTANCE_RESOLUTION + c.dist_correction
    let xyz := positionXYZ c (st.cos_rot_table az) (st.sin_rot_table az) distance
    let inten := intensityLegacy c (dataByte pkt b (k + 2)) d
    if pointInRange st.config distance then
      some ⟨xyz.1, xyz.2.1, xyz.2.2, inten, pkt.stamp, c.laser_ring⟩
    else none
  else none

/-- All points of block `b` in the legacy path. -/
def legacyBlockPoints (st : DecoderState) (pkt : VelodynePacket) (b : ℕ) : List VPoint :=
  (List.range SCANS_PER_BLOCK).filterMap fun j => legacyPointAt st pkt b j

/-- `unpackAndAdd`: dispatch to the VLP path when `is_vlp_`, else the
legacy dual-bank path, which always returns `-1.0` (rawdata.cc:162-327). -/
def unpackAndAdd (st : DecoderState) (pkt : VelodynePacket) : List VPoint × ℚ :=
  if st.is_vlp then unpack_vlp st pkt
  else ((List.range BLOCKS_PER_PACKET).flatMap fun b => legacyBlockPoints st pkt b, -1)

/-- The derived integer lower angle bound of `setParameters` before the
equal-bounds widening (rawdata.cc:57-66). -/
def rawMinAngle (view_direction view_width : ℚ) : ℤ :=
  let tmp := fmodQ (fmodQ (view_direction + view_width / 2) (2 * M_PI) + 2 * M_PI) (2 * M_PI)
  truncQ (100 * (2 * M_PI - tmp) * 180 / M_PI + 0.5)

/-- The derived integer upper angle bound of `setParameters` before the
equal-bounds widening (rawdata.cc:58-67). -/
def rawMaxAngle (view_direction view_width : ℚ) : ℤ :=
  let tmp := fmodQ (fmodQ (view_direction - view_width / 2) (2 * M_PI) + 2 * M_PI) (2 * M_PI)
  truncQ (100 * (2 * M_PI - tmp) * 180 / M_PI + 0.5)

/-- `setParameters` (rawdata.cc:48-74): store the ranges, derive the
hardware angle window, and widen equal bounds to the full circle. -/
def setParameters (min_range max_range view_direction view_width : ℚ) : Config :=
  let mn := rawMinAngle view_direction view_width
  let mx := rawMaxAngle view_direction view_width
  if mn = mx then
    { min_range := min_range, max_range := max_range, min_angle := 0, max_angle := 36000 }
  else
    { min_range := min_range, max_range := max_range, min_angle := mn, max_angle := mx }

/-- `getVLP32TimingOffsets` (rawdata.cc:128-154): the 12 × 32 table of
per-(firing cycle, slot) time offsets, built from the VLP32 profile
constants converted from microseconds to seconds. -/
def getVLP32TimingOffsets : List (List ℚ) :=
  let full_firing_cycle := VLP_32_SPEC.firing_seq_duration * (1 / 1000000)
  let single_firing := VLP_32_SPEC.firing_duration * (1 / 1000000)
  let dual_mode := false
  (List.range 12).map fun i =>
    (List.range 32).map fun j =>
      let block_idx : ℚ := if dual_mode then ((i / 2 : ℕ) : ℚ) else (i : ℚ)
      let pt_idx : ℚ := ((j / 2 : ℕ) : ℚ)
      full_firing_cycle * block_idx + single_firing * pt_idx

/-- The device-profile selection of `setup` (rawdata.cc:105-116): 16
calibrated lasers means VLP16 with no timing offsets; otherwise a
"VLP32" model hint means VLP32 with the timing table; otherwise the
legacy path with no table.  `prev` is the field value left untouched
by the branches that do not assign `vlp_spec_`. -/
def setupSelect (prev : VlpSpec) (num_lasers : ℕ) (deviceModel : String) :
    VlpSpec × List (List ℚ) × Bool :=
  if num_lasers = 16 then (VLP_16_SPEC, [], true)
  else if deviceModel = "VLP32" then (VLP_32_SPEC, getVLP32TimingOffsets, true)
  else (prev, [], false)

/-- The decoder state `setup` leaves behind, given the loaded
calibration, the configuration and the trig tables. -/
def stateFromSetup (prev : VlpSpec) (num_lasers : ℕ) (deviceModel : String)
    (cfg : Config) (calib : ℕ → LaserCorrection) (cosT sinT : ℤ → ℚ) : DecoderState :=
  { config := cfg
    calibration := calib
    cos_rot_table := cosT
    sin_rot_table := sinT
    vlp_spec := (setupSelect prev num_lasers deviceModel).1
    timing_offsets := (setupSelect prev num_lasers deviceModel).2.1
    is_vlp := (setupSelect prev num_lasers deviceModel).2.2 }

/-! ### Statements of the spec's formulas, for comparison with the code -/

/-- The intensity formula as the spec states it: `raw_intensity +
focal_slope * |focal_offset - 256 (1 - d/65535)²|` with real division,
then clamped — the legacy path's reading. -/
def specIntensity (c : LaserCorrection) (rawI d : ℕ) : ℚ :=
  clampIntensity c ((rawI : ℚ) + c.focal_slope *
    |focalOffset c - 256 * (1 - (d : ℚ) / 65535) * (1 - (d : ℚ) / 65535)|)

/-- The corrected azimuth as the claim states it: `round(rotation(b) +
azimuth_diff(b) * (floor(laser / lasers_per_firing) * firing_duration +
s * firing_seq_duration) / block_duration)` reduced mod 36000, where
`azimuth_diff` is the inter-block difference for non-final blocks and
the previously computed difference for the final block. -/
def specAzimuthCorrected (sp : VlpSpec) (pkt : VelodynePacket) (b s laser : ℕ) : ℤ :=
  let diff : ℚ :=
    if b < BLOCKS_PER_PACKET - 1 then
      (cRem (36000 + (rotationOf pkt (b + 1) : ℤ) - (rotationOf pkt b : ℤ)) 36000 : ℚ)
    else
      (cRem (36000 + (rotationOf pkt (BLOCKS_PER_PACKET - 1) : ℤ)
        - (rotationOf pkt (BLOCKS_PER_PACKET - 2) : ℤ)) 36000 : ℚ)
  cRem (roundQ ((rotationOf pkt b : ℚ) +
    diff * (((laser / sp.lasers_per_firing : ℕ) : ℚ) * sp.firing_duration
      + (s : ℚ) * sp.firing_seq_duration) / sp.block_duration)) 36000

/-- The packet's return value as the claim states it: the sum of the
inter-block azimuth deltas over the blocks of the packet. -/
def specAzimuthSweep (pkt : VelodynePacket) : ℚ :=
  ((List.range (BLOCKS_PER_PACKET - 1)).map fun b =>
    (cRem (36000 + (rotationOf pkt (b + 1) : ℤ) - (rotationOf pkt b : ℤ)) 36000 : ℚ)).sum

/-! ### Calibration transforms for the two-point-correction claim -/

/-- Turn a laser's two-point correction off. -/
def twoPtOff (c : LaserCorrection) : LaserCorrection :=
  { c with two_pt_correction_available := false }

/-- Turn a laser's two-point correction on with zero correction deltas
(both reference corrections equal to the base distance correction). -/
def twoPtOnZero (c : LaserCorrection) : LaserCorrection :=
  { c with two_pt_correction_available := true,
           dist_correction_x := c.dist_correction,
           dist_correction_y := c.dist_correction }

/-- Apply a per-laser transform to every laser of the calibration. -/
def mapCalibration (f : LaserCorrection → LaserCorrection) (st : DecoderState) : DecoderState :=
  { st with calibration := fun n => f (st.calibration n) }

/-! ### Concrete inputs for witnesses and counterexamples -/

/-- An all-zero calibration record. -/
def c0 : LaserCorrection :=
  { cos_vert_correction := 0
    sin_vert_correction := 0
    cos_rot_correction := 0
    sin_rot_correction := 0
    horiz_offset_correction := 0
    vert_offset_correction := 0
    dist_correction := 0
    two_pt_correction_available := false
    dist_correction_x := 0
    dist_correction_y := 0
    min_intensity := 0
    max_intensity := 0
    focal_distance := 0
    focal_slope := 0
    laser_ring := 0 }

/-- A full-circle, wide-range configuration. -/
def cfg0 : Config :=
  { min_range := 0, max_range := 1000, min_angle := 0, max_angle := 36000 }

/-- A trig table returning 0 everywhere (the trig values are irrelevant
to the properties below). -/
def zeroTab : ℤ → ℚ := fun _ => 0

/-- A VLP16 decoder state with the zero calibration. -/
def st16 : DecoderState :=
  { config := cfg0, calibration := fun _ => c0, cos_rot_table := zeroTab,
    sin_rot_table := zeroTab, vlp_spec := VLP_16_SPEC, timing_offsets := [], is_vlp := true }

/-- A legacy (dual-bank) decoder state with the zero calibration. -/
def stLegacy : DecoderState :=
  { config := cfg0, calibration := fun _ => c0, cos_rot_table := zeroTab,
    sin_rot_table := zeroTab, vlp_spec := VLP_16_SPEC, timing_offsets := [], is_vlp := false }

/-- The state `setup` builds from a 32-laser calibration with the
"VLP32" model hint. -/
def stV32 : DecoderState :=
  stateFromSetup VLP_16_SPEC 32 "VLP32" cfg0 (fun _ => c0) zeroTab zeroTab

/-- A packet with valid headers and monotonically increasing rotation. -/
def pkt0 : VelodynePacket :=
  { stamp := 5, blocks := fun b => { header := UPPER_BANK, rotation := 100 * b, data := fun _ => 0 } }

/-- A packet with valid headers, zero rotation and zero data. -/
def pktV : VelodynePacket :=
  { stamp := 5, blocks := fun _ => { header := UPPER_BANK, rotation := 0, data := fun _ => 0 } }

/-- A packet whose block 0 is valid but block 1 has a mangled header. -/
def pktC1 : VelodynePacket :=
  { stamp := 5,
    blocks := fun b => { header := if b = 0 then UPPER_BANK else 0, rotation := 0, data := fun _ => 0 } }

/-- A packet whose rotation jumps down by more than 36000 between
blocks 10 and 11 (legal 16-bit field values). -/
def pktC10 : VelodynePacket :=
  { stamp := 0,
    blocks := fun b => { header := UPPER_BANK, rotation := if b = 10 then 65535 else 0, data := fun _ => 0 } }

/-- A calibration with focal slope 1 and room in the intensity clamp. -/
def cC2 : LaserCorrection := { c0 with focal_slope := 1, max_intensity := 1000 }

/-- A VLP16 state with the `cC2` calibration. -/
def stC2 : DecoderState :=
  { config := cfg0, calibration := fun _ => cC2, cos_rot_table := zeroTab,
    sin_rot_table := zeroTab, vlp_spec := VLP_16_SPEC, timing_offsets := [], is_vlp := true }

/-- A packet whose first channel slot carries raw distance 13107
(bytes 0x33 0x33) and zero intensity. -/
def pktC2 : VelodynePacket :=
  { stamp := 7,
    blocks := fun _ =>
      { header := UPPER_BANK, rotation := 0,
        data := fun k => if k = 0 then 51 else if k = 1 then 51 else 0 } }

/-- The point the zero calibration yields from a zero slot at stamp 5. -/
def p0 : VPoint := { x := 0, y := 0, z := 0, intensity := 0, time := 5, laser_id := 0 }

/-! ## Helper lemmas -/

theorem truncQ_zero : truncQ 0 = 0 := by simp [truncQ]

theorem roundQ_zero : roundQ 0 = 0 := by
  rw [roundQ, if_pos le_rfl, zero_add]
  exact Int.floor_eq_zero_iff.mpr (by norm_num)

theorem cRem_zero (n : ℤ) : cRem 0 n = 0 := by simp [cRem]

theorem cRem_bounds {a n : ℤ} (ha : 0 ≤ a) (hn : 0 < n) : 0 ≤ cRem a n ∧ cRem a n < n := by
  rw [cRem, if_pos ha]
  exact ⟨Int.emod_nonneg a (by omega), Int.emod_lt_of_pos a hn⟩

theorem roundQ_nonneg {q : ℚ} (h : 0 ≤ q) : 0 ≤ roundQ q := by
  rw [roundQ, if_pos h]
  positivity

theorem lastDiffAt_nonneg (pkt : VelodynePacket)
    (h : ∀ i, i < BLOCKS_PER_PACKET - 1 → 0 ≤ blockDiffRaw pkt i) :
    ∀ b, 0 ≤ lastDiffAt pkt b := by
  intro b
  induction b with
  | zero => simp [lastDiffAt]
  | succ n ih =>
    rw [lastDiffAt]
    split
    · exact_mod_cast h n ‹_›
    · exact ih

theorem azimuthDiff_nonneg (pkt : VelodynePacket)
    (h : ∀ i, i < BLOCKS_PER_PACKET - 1 → 0 ≤ blockDiffRaw pkt i) (b : ℕ) :
    0 ≤ azimuthDiff pkt b := by
  rw [azimuthDiff]
  split
  · exact_mod_cast h b ‹_›
  · exact lastDiffAt_nonneg pkt h b

theorem unpackVlpAux_all_valid (st : DecoderState) (pkt : VelodynePacket) :
    ∀ fuel b, (∀ i, b ≤ i → i < b + fuel → headerOf pkt i = UPPER_BANK) →
      unpackVlpAux st pkt fuel b =
        ((List.range' b fuel).flatMap fun i => vlpBlockPoints st pkt i, sliceAngle pkt) := by
  intro fuel
  induction fuel with
  | zero => intro b _; simp [unpackVlpAux]
  | succ n ih =>
    intro b h
    have hb : headerOf pkt b = UPPER_BANK := h b le_rfl (by omega)
    rw [unpackVlpAux, if_neg (fun hc => hc hb)]
    rw [ih (b + 1) (fun i h1 h2 => h i (by omega) (by omega))]
    rw [List.range'_succ]
    simp

theorem unpackVlpAux_first_invalid (st : DecoderState) (pkt : VelodynePacket) :
    ∀ fuel j b, j ≤ b → b < j + fuel → headerOf pkt b ≠ UPPER_BANK →
      (∀ i, j ≤ i → i < b → headerOf pkt i = UPPER_BANK) →
      unpackVlpAux st pkt fuel j =
        ((List.range' j (b - j)).flatMap fun i => vlpBlockPoints st pkt i, -1) := by
  intro fuel
  induction fuel with
  | zero => intro j b h1 h2 _ _; omega
  | succ n ih =>
    intro j b h1 h2 hbad hpre
    rcases eq_or_lt_of_le h1 with rfl | hlt
    · rw [unpackVlpAux, if_pos hbad]
      simp
    · have hj : headerOf pkt j = UPPER_BANK := hpre j le_rfl hlt
      rw [unpackVlpAux, if_neg (fun hc => hc hj)]
      rw [ih (j + 1) b (by omega) (by omega) hbad (fun i hi1 hi2 => hpre i (by omega) hi2)]
      have hbj : b - j = (b - (j + 1)) + 1 := by omega
      rw [hbj, List.range'_succ]
      simp

theorem unpackVlpAux_ret_invalid (st : DecoderState) (pkt : VelodynePacket) :
    ∀ fuel j b, j ≤ b → b < j + fuel → headerOf pkt b ≠ UPPER_BANK →
      (unpackVlpAux st pkt fuel j).2 = -1 := by
  intro fuel
  induction fuel with
  | zero => intro j b h1 h2 _; omega
  | succ n ih =>
    intro j b h1 h2 hbad
    by_cases hj : headerOf pkt j = UPPER_BANK
    · have hne : j ≠ b := fun h => hbad (h ▸ hj)
      rw [unpackVlpAux, if_neg (fun hc => hc hj)]
      simpa using ih (j + 1) b (by omega) (by omega) hbad
    · rw [unpackVlpAux, if_pos hj]

theorem mem_unpackVlpAux (st : DecoderState) (pkt : VelodynePacket) (p : VPoint) :
    ∀ fuel j, p ∈ (unpackVlpAux st pkt fuel j).1 → ∃ b, p ∈ vlpBlockPoints st pkt b := by
  intro fuel
  induction fuel with
  | zero => intro j h; simp [unpackVlpAux] at h
  | succ n ih =>
    intro j h
    rw [unpackVlpAux] at h
    by_cases hj : headerOf pkt j ≠ UPPER_BANK
    · rw [if_pos hj] at h; simp at h
    · rw [if_neg hj] at h
      simp only [List.mem_append] at h
      rcases h with h | h
      · exact ⟨j, h⟩
      · exact ih (j + 1) h

theorem mem_unpack_vlp_exists (st : DecoderState) (pkt : VelodynePacket) (p : VPoint)
    (h : p ∈ (unpack_vlp st pkt).1) : ∃ b s laser, vlpPointAt st pkt b s laser = some p := by
  obtain ⟨b, hb⟩ := mem_unpackVlpAux st pkt p BLOCKS_PER_PACKET 0 h
  rw [vlpBlockPoints] at hb
  simp only [List.mem_flatMap, List.mem_filterMap, List.mem_range] at hb
  obtain ⟨s, _, laser, _, hl⟩ := hb
  exact ⟨b, s, laser, hl⟩

theorem vlpPointAt_time (st : DecoderState) (pkt : VelodynePacket) (b s laser : ℕ) (p : VPoint)
    (h : vlpPointAt st pkt b s laser = some p) :
    p.time = if st.timing_offsets.isEmpty then pkt.stamp
      else pkt.stamp + (st.timing_offsets.getD b []).getD s 0 := by
  simp only [vlpPointAt] at h
  split at h
  · split at h
    · cases h; rfl
    · cases h
  · cases h

theorem getVLP32TimingOffsets_length : getVLP32TimingOffsets.length = 12 := by
  simp [getVLP32TimingOffsets]

theorem mem_blockPoints_of_pointAt {st : DecoderState} {pkt : VelodynePacket}
    {b s laser : ℕ} {p : VPoint} (hs : s < st.vlp_spec.firing_seqs_per_block)
    (hl : laser < st.vlp_spec.lasers_per_firing_seq)
    (h : vlpPointAt st pkt b s laser = some p) : p ∈ vlpBlockPoints st pkt b := by
  rw [vlpBlockPoints]
  simp only [List.mem_flatMap, List.mem_filterMap, List.mem_range]
  exact ⟨s, hs, laser, hl, h⟩

theorem vlpAzimuthCorrected_zero_rot (sp : VlpSpec) (pkt : VelodynePacket)
    (hrot : ∀ b, (pkt.blocks b).rotation = 0) (s laser : ℕ) :
    vlpAzimuthCorrected sp pkt 0 s laser = 0 := by
  have hz : blockDiffRaw pkt 0 = 0 := by
    rw [blockDiffRaw, rotationOf, rotationOf, hrot, hrot]
    norm_num [cRem]
  rw [vlpAzimuthCorrected, azimuthDiff, if_pos (by norm_num [BLOCKS_PER_PACKET]), hz]
  rw [rotationOf, hrot]
  norm_num [roundQ_zero, cRem_zero]

theorem vlpPointAt_zero_slot (pkt : VelodynePacket)
    (hrot : ∀ b, (pkt.blocks b).rotation = 0)
    (hdata : ∀ b k, (pkt.blocks b).data k = 0) (s laser : ℕ) :
    vlpPointAt st16 pkt 0 s laser =
      some { x := 0, y := 0, z := 0, intensity := 0, time := pkt.stamp, laser_id := 0 } := by
  have haz := vlpAzimuthCorrected_zero_rot VLP_16_SPEC pkt hrot s laser
  simp only [vlpPointAt, st16, cfg0, zeroTab, haz]
  norm_num [azimuthInFov, pointInRange, rawDistVal, dataByte, hdata, positionXYZ,
    distanceCorrXY, intensityVlp, clampIntensity, focalOffset, c0, VLP_16_SPEC, cfg0]

theorem vlpPointAt_pktC1 (s laser : ℕ) : vlpPointAt st16 pktC1 0 s laser = some p0 := by
  have h := vlpPointAt_zero_slot pktC1 (fun _ => rfl) (fun _ _ => rfl) s laser
  simpa [pktC1, p0] using h

theorem vlpPointAt_pktV (s laser : ℕ) : vlpPointAt st16 pktV 0 s laser = some p0 := by
  have h := vlpPointAt_zero_slot pktV (fun _ => rfl) (fun _ _ => rfl) s laser
  simpa [pktV, p0] using h

theorem stV32_fields : stV32 =
    { config := cfg0, calibration := fun _ => c0, cos_rot_table := zeroTab,
      sin_rot_table := zeroTab, vlp_spec := VLP_32_SPEC,
      timing_offsets := getVLP32TimingOffsets, is_vlp := true } := by
  simp [stV32, stateFromSetup, setupSelect]

theorem vlpPointAt_pktV32 (laser : ℕ) : vlpPointAt stV32 pktV 0 0 laser = some p0 := by
  have haz := vlpAzimuthCorrected_zero_rot VLP_32_SPEC pktV (fun _ => rfl) 0 laser
  rw [stV32_fields]
  simp only [vlpPointAt, cfg0, zeroTab, haz]
  norm_num [azimuthInFov, pointInRange, rawDistVal, dataByte, positionXYZ,
    distanceCorrXY, intensityVlp, clampIntensity, focalOffset, c0, VLP_32_SPEC, cfg0,
    pktV, p0, getVLP32TimingOffsets, List.getD_eq_getElem?_getD, List.getElem?_map,
    List.getElem?_range]

theorem unpack_vlp_all_valid (st : DecoderState) (pkt : VelodynePacket)
    (h : ∀ i, i < BLOCKS_PER_PACKET → headerOf pkt i = UPPER_BANK) :
    unpack_vlp st pkt =
      ((List.range BLOCKS_PER_PACKET).flatMap fun i => vlpBlockPoints st pkt i,
        sliceAngle pkt) := by
  rw [unpack_vlp, unpackVlpAux_all_valid st pkt BLOCKS_PER_PACKET 0 (fun i _ hi => h i (by omega))]
  rw [List.range_eq_range']

theorem p0_mem_st16_pktV : p0 ∈ (unpack_vlp st16 pktV).1 := by
  rw [unpack_vlp_all_valid st16 pktV (by decide)]
  exact List.mem_flatMap.mpr ⟨0, by decide,
    mem_blockPoints_of_pointAt (by decide) (by decide) (vlpPointAt_pktV 0 0)⟩

theorem p0_mem_stV32_pktV : p0 ∈ (unpack_vlp stV32 pktV).1 := by
  rw [unpack_vlp_all_valid stV32 pktV (by decide)]
  exact List.mem_flatMap.mpr ⟨0, by decide,
    mem_blockPoints_of_pointAt (by decide) (by decide) (vlpPointAt_pktV32 0)⟩

/-! ## Claim theorems -/

/-- C1 (corrected): in the VLP16/VLP32 path a malformed block header
makes the decode call return the failure value `-1` and produce no
points from the malformed block onward — but the blocks *preceding* the
first malformed one have already been decoded, so the output is exactly
their points (not necessarily empty, contrary to the claim). -/
theorem c1_malformed_block_abort (st : DecoderState) (pkt : VelodynePacket) (b : ℕ)
    (hb : b < BLOCKS_PER_PACKET) (hbad : headerOf pkt b ≠ UPPER_BANK)
    (hpre : ∀ i, i < b → headerOf pkt i = UPPER_BANK) :
    (unpack_vlp st pkt).2 = -1 ∧
      (unpack_vlp st pkt).1 = (List.range b).flatMap fun i => vlpBlockPoints st pkt i := by
  have h := unpackVlpAux_first_invalid st pkt BLOCKS_PER_PACKET 0 b (Nat.zero_le b)
    (by omega) hbad (fun i _ hi => hpre i hi)
  rw [unpack_vlp, h]
  exact ⟨rfl, by simp [List.range_eq_range']⟩

/-- C1 witness: block 1 of `pktC1` is malformed and blocks before it
are valid, so decode returns `-1` and yields exactly block 0's points. -/
theorem c1_witness :
    (unpack_vlp st16 pktC1).2 = -1 ∧
      (unpack_vlp st16 pktC1).1 = (List.range 1).flatMap fun i => vlpBlockPoints st16 pktC1 i :=
  c1_malformed_block_abort st16 pktC1 1 (by norm_num [BLOCKS_PER_PACKET]) (by decide) (by decide)

/-- C1 counterexample: on `pktC1` (block 0 valid, block 1 mangled) the
decode call returns `-1` yet the output point collection is not empty —
block 0's points were appended, refuting "appends zero points". -/
theorem c1_counterexample :
    (unpack_vlp st16 pktC1).2 = -1 ∧ (unpack_vlp st16 pktC1).1 ≠ [] := by
  have h := unpackVlpAux_first_invalid st16 pktC1 BLOCKS_PER_PACKET 0 1 (by omega)
    (by norm_num [BLOCKS_PER_PACKET]) (by decide) (by decide)
  rw [unpack_vlp, h]
  refine ⟨rfl, ?_⟩
  have hp : p0 ∈ vlpBlockPoints st16 pktC1 0 :=
    mem_blockPoints_of_pointAt (by decide) (by decide) (vlpPointAt_pktC1 0 0)
  exact List.ne_nil_of_mem (List.mem_flatMap.mpr ⟨0, by decide, hp⟩)

/-- C3 (confirmed): in the VLP path the corrected azimuth used for the
field-of-view test and the trig lookup equals the claim's closed-form
interpolation formula, with the final block reusing the previously
computed azimuth difference. -/
theorem c3_azimuth_interpolation (sp : VlpSpec) (pkt : VelodynePacket) (b s laser : ℕ)
    (hb : b < BLOCKS_PER_PACKET) :
    vlpAzimuthCorrected sp pkt b s laser = specAzimuthCorrected sp pkt b s laser := by
  rw [vlpAzimuthCorrected, specAzimuthCorrected, azimuthDiff, vlpFiringOffset]
  by_cases h : b < BLOCKS_PER_PACKET - 1
  · rw [if_pos h, if_pos h, blockDiffRaw]
  · have hb11 : b = 11 := by
      rw [BLOCKS_PER_PACKET] at hb h
      omega
    subst hb11
    rw [if_neg h, if_neg h]
    have hld : lastDiffAt pkt 11 = (blockDiffRaw pkt 10 : ℚ) := by
      rw [show (11 : ℕ) = 10 + 1 from rfl, lastDiffAt,
        if_pos (by norm_num [BLOCKS_PER_PACKET])]
    rw [hld, blockDiffRaw]
    norm_num [BLOCKS_PER_PACKET]

/-- C3 witness: the closed form evaluated at the final block of a
concrete packet. -/
theorem c3_witness :
    11 < BLOCKS_PER_PACKET ∧
      vlpAzimuthCorrected VLP_16_SPEC pkt0 11 1 0 = specAzimuthCorrected VLP_16_SPEC pkt0 11 1 0 :=
  ⟨by norm_num [BLOCKS_PER_PACKET],
    c3_azimuth_interpolation VLP_16_SPEC pkt0 11 1 0 (by norm_num [BLOCKS_PER_PACKET])⟩

/-- C4 (confirmed): with every block header valid, `unpack_vlp` returns
the sum of the inter-block azimuth deltas; the legacy path always
returns `-1`; and a rejected VLP packet returns a negative value. -/
theorem c4_return_value :
    (∀ st pkt, (∀ b, b < BLOCKS_PER_PACKET → headerOf pkt b = UPPER_BANK) →
        (unpack_vlp st pkt).2 = specAzimuthSweep pkt) ∧
    (∀ st pkt, st.is_vlp = false → (unpackAndAdd st pkt).2 = -1) ∧
    (∀ st pkt b, b < BLOCKS_PER_PACKET → headerOf pkt b ≠ UPPER_BANK →
        (unpack_vlp st pkt).2 < 0) := by
  refine ⟨?_, ?_, ?_⟩
  · intro st pkt h
    rw [unpack_vlp_all_valid st pkt h]
    rfl
  · intro st pkt h
    rw [unpackAndAdd, if_neg (by simp [h])]
  · intro st pkt b hb hbad
    rw [unpack_vlp, unpackVlpAux_ret_invalid st pkt BLOCKS_PER_PACKET 0 b (Nat.zero_le b)
      (by omega) hbad]
    norm_num

/-- C4 witness: the three return-value facts at concrete inputs. -/
theorem c4_witness :
    (unpack_vlp st16 pkt0).2 = specAzimuthSweep pkt0 ∧
      (unpackAndAdd stLegacy pkt0).2 = -1 ∧ (unpack_vlp st16 pktC1).2 < 0 :=
  ⟨c4_return_value.1 st16 pkt0 (by decide),
    c4_return_value.2.1 stLegacy pkt0 rfl,
    c4_return_value.2.2 st16 pktC1 1 (by norm_num [BLOCKS_PER_PACKET]) (by decide)⟩

/-- C5 (confirmed): the azimuth window test of both decode paths
accepts `a` with `lo < hi` iff `lo ≤ a ≤ hi`, and with `lo > hi` iff
`a ≤ hi or a ≥ lo` (window wrapping through zero). -/
theorem c5_fov_window (lo hi a : ℤ) (h0 : 0 ≤ a) (h1 : a < 36000) :
    (lo < hi → (azimuthInFov lo hi a = true ↔ lo ≤ a ∧ a ≤ hi)) ∧
    (hi < lo → (azimuthInFov lo hi a = true ↔ a ≤ hi ∨ lo ≤ a)) := by
  simp only [azimuthInFov, Bool.or_eq_true, Bool.and_eq_true, decide_eq_true_eq,
    ge_iff_le, gt_iff_lt]
  omega

/-- C5 witness: the window test at a concrete azimuth and window. -/
theorem c5_witness :
    ((10 : ℤ) < 100 → (azimuthInFov 10 100 50 = true ↔ (10 : ℤ) ≤ 50 ∧ (50 : ℤ) ≤ 100)) ∧
    ((100 : ℤ) < 10 → (azimuthInFov 10 100 50 = true ↔ (50 : ℤ) ≤ 100 ∨ (10 : ℤ) ≤ 50)) :=
  c5_fov_window 10 100 50 (by norm_num) (by norm_num)

theorem fmodQ_zero (y : ℚ) : fmodQ 0 y = 0 := by
  simp [fmodQ, truncQ_zero]

theorem fmodQ_self (y : ℚ) (hy : y ≠ 0) : fmodQ y y = 0 := by
  rw [fmodQ, div_self hy]
  norm_num [truncQ]

theorem rawAngle_eval : truncQ (100 * (2 * M_PI - 0) * 180 / M_PI + 0.5) = 36000 := by
  have hx : (100 * (2 * M_PI - 0) * 180 / M_PI + 0.5 : ℚ) = 72001 / 2 := by
    norm_num [M_PI]
  rw [hx, truncQ, if_pos (by norm_num)]
  norm_num

theorem rawMinAngle_zero_zero : rawMinAngle 0 0 = 36000 := by
  simp only [rawMinAngle]
  rw [show (0 : ℚ) + 0 / 2 = 0 by norm_num, fmodQ_zero, zero_add,
    fmodQ_self _ (by norm_num [M_PI])]
  exact rawAngle_eval

theorem rawMaxAngle_zero_zero : rawMaxAngle 0 0 = 36000 := by
  simp only [rawMaxAngle]
  rw [show (0 : ℚ) - 0 / 2 = 0 by norm_num, fmodQ_zero, zero_add,
    fmodQ_self _ (by norm_num [M_PI])]
  exact rawAngle_eval

/-- C6 (confirmed): whenever the derived integer angle bounds of
`setParameters` come out equal, the stored window is widened to the
full circle `[0, 36000]`. -/
theorem c6_collapsed_window (min_range max_range view_direction view_width : ℚ)
    (h : rawMinAngle view_direction view_width = rawMaxAngle view_direction view_width) :
    (setParameters min_range max_range view_direction view_width).min_angle = 0 ∧
      (setParameters min_range max_range view_direction view_width).max_angle = 36000 := by
  simp [setParameters, h]

/-- C6 witness: `view_direction = 0, view_width = 0` collapses the
derived bounds (both 36000) and the window is widened. -/
theorem c6_witness :
    rawMinAngle 0 0 = rawMaxAngle 0 0 ∧
      (setParameters 0 130 0 0).min_angle = 0 ∧ (setParameters 0 130 0 0).max_angle = 36000 := by
  have h : rawMinAngle 0 0 = rawMaxAngle 0 0 := by
    rw [rawMinAngle_zero_zero, rawMaxAngle_zero_zero]
  exact ⟨h, (c6_collapsed_window 0 130 0 0 h).1, (c6_collapsed_window 0 130 0 0 h).2⟩

/-- C7 (confirmed): the VLP32 timing-offset table is 12 × 32 and entry
`(i, j)` is `firing_seq_duration·1e-6·i + firing_duration·1e-6·⌊j/2⌋`. -/
theorem c7_vlp32_timing_table :
    getVLP32TimingOffsets.length = 12 ∧
      (∀ i, i < 12 → (getVLP32TimingOffsets.getD i []).length = 32) ∧
      ∀ i j, i < 12 → j < 32 → (getVLP32TimingOffsets.getD i []).getD j 0 =
        VLP_32_SPEC.firing_seq_duration * (1 / 1000000) * (i : ℚ) +
          VLP_32_SPEC.firing_duration * (1 / 1000000) * ((j / 2 : ℕ) : ℚ) := by
  refine ⟨getVLP32TimingOffsets_length, ?_, ?_⟩
  · intro i hi
    simp [getVLP32TimingOffsets, List.getD_eq_getElem?_getD, List.getElem?_map,
      List.getElem?_range, hi]
  · intro i j hi hj
    simp [getVLP32TimingOffsets, List.getD_eq_getElem?_getD, List.getElem?_map,
      List.getElem?_range, hi, hj]

/-- C7 witness: the table entry at firing cycle 3, slot 7. -/
theorem c7_witness :
    (getVLP32TimingOffsets.getD 3 []).getD 7 0 =
      VLP_32_SPEC.firing_seq_duration * (1 / 1000000) * (3 : ℚ) +
        VLP_32_SPEC.firing_duration * (1 / 1000000) * ((7 / 2 : ℕ) : ℚ) :=
  c7_vlp32_timing_table.2.2 3 7 (by norm_num) (by norm_num)

theorem vlpPointAt_pktC2 :
    vlpPointAt stC2 pktC2 0 0 0 =
      some { x := 0, y := 0, z := 0, intensity := 0, time := 7, laser_id := 0 } := by
  have haz := vlpAzimuthCorrected_zero_rot VLP_16_SPEC pktC2 (fun _ => rfl) 0 0
  simp only [vlpPointAt, stC2, cfg0, zeroTab, haz]
  norm_num [azimuthInFov, pointInRange, rawDistVal, dataByte, pktC2, positionXYZ,
    distanceCorrXY, intensityVlp, clampIntensity, focalOffset, cC2, c0, VLP_16_SPEC, cfg0]

theorem intensityVlp_cC2 : intensityVlp cC2 0 13107 = 0 := by
  norm_num [intensityVlp, clampIntensity, focalOffset, cC2, c0]

theorem intensityLegacy_cC2 : intensityLegacy cC2 0 13107 = 2304 / 25 := by
  norm_num [intensityLegacy, clampIntensity, focalOffset, cC2, c0]
  rw [show |(2304 / 25 : ℚ)| = 2304 / 25 from abs_of_nonneg (by norm_num)]
  norm_num

theorem specIntensity_cC2 : specIntensity cC2 0 13107 = 2304 / 25 := by
  norm_num [specIntensity, clampIntensity, focalOffset, cC2, c0]
  rw [show |(2304 / 25 : ℚ)| = 2304 / 25 from abs_of_nonneg (by norm_num)]
  norm_num

/-- C2 (code bug): the VLP path computes the intensity quadratic term
with C *integer* division (`tmp.uint/65535` without the float cast the
legacy path has), so for raw distance 13107 it yields intensity 0 while
the spec formula (and the legacy path) yields 92.16 = 2304/25.  The
decoded point of `pktC2` indeed carries intensity 0. -/
theorem c2_intensity_integer_division :
    vlpPointAt stC2 pktC2 0 0 0 =
        some { x := 0, y := 0, z := 0, intensity := 0, time := 7, laser_id := 0 } ∧
      intensityVlp cC2 0 13107 = 0 ∧
      intensityLegacy cC2 0 13107 = 2304 / 25 ∧
      specIntensity cC2 0 13107 = 2304 / 25 ∧
      intensityVlp cC2 0 13107 ≠ specIntensity cC2 0 13107 := by
  refine ⟨vlpPointAt_pktC2, intensityVlp_cC2, intensityLegacy_cC2, specIntensity_cC2, ?_⟩
  rw [intensityVlp_cC2, specIntensity_cC2]
  norm_num

/-- C8 (confirmed): setup with 16 calibrated lasers leaves the timing
table empty and every decoded point carries the packet stamp; setup
with the "VLP32" hint (laser count ≠ 16) builds a non-empty table and
every decoded point's time is the stamp plus the (block, firing
sequence) table entry. -/
theorem c8_timing_offsets (prev : VlpSpec) (model : String) (cfg : Config)
    (calib : ℕ → LaserCorrection) (cosT sinT : ℤ → ℚ) :
    ((stateFromSetup prev 16 model cfg calib cosT sinT).timing_offsets = [] ∧
      ∀ pkt p, p ∈ (unpack_vlp (stateFromSetup prev 16 model cfg calib cosT sinT) pkt).1 →
        p.time = pkt.stamp) ∧
    ∀ num_lasers, num_lasers ≠ 16 →
      (stateFromSetup prev num_lasers "VLP32" cfg calib cosT sinT).timing_offsets ≠ [] ∧
      ∀ pkt p,
        p ∈ (unpack_vlp (stateFromSetup prev num_lasers "VLP32" cfg calib cosT sinT) pkt).1 →
        ∃ b s laser,
          vlpPointAt (stateFromSetup prev num_lasers "VLP32" cfg calib cosT sinT) pkt b s laser
              = some p ∧
            p.time = pkt.stamp +
              (((stateFromSetup prev num_lasers "VLP32" cfg calib cosT sinT).timing_offsets.getD
                b []).getD s 0) := by
  have h16 : (stateFromSetup prev 16 model cfg calib cosT sinT).timing_offsets = [] := by
    simp [stateFromSetup, setupSelect]
  constructor
  · refine ⟨h16, ?_⟩
    intro pkt p hp
    obtain ⟨b, s, laser, hbs⟩ := mem_unpack_vlp_exists _ pkt p hp
    have ht := vlpPointAt_time _ pkt b s laser p hbs
    rw [h16] at ht
    simpa using ht
  · intro n hn
    have h32 : (stateFromSetup prev n "VLP32" cfg calib cosT sinT).timing_offsets =
        getVLP32TimingOffsets := by
      simp [stateFromSetup, setupSelect, hn]
    have hne : getVLP32TimingOffsets ≠ [] := by
      intro hc
      have hl := getVLP32TimingOffsets_length
      rw [hc] at hl
      simp at hl
    refine ⟨by rw [h32]; exact hne, ?_⟩
    intro pkt p hp
    obtain ⟨b, s, laser, hbs⟩ := mem_unpack_vlp_exists _ pkt p hp
    refine ⟨b, s, laser, hbs, ?_⟩
    have ht := vlpPointAt_time _ pkt b s laser p hbs
    rw [h32] at ht ⊢
    rw [ht, if_neg (by simp [hne])]

theorem stateFromSetup_16_eq :
    stateFromSetup VLP_16_SPEC 16 "" cfg0 (fun _ => c0) zeroTab zeroTab = st16 := by
  simp [stateFromSetup, setupSelect, st16]

/-- C8 witness: the two timing behaviours at concrete decoded points. -/
theorem c8_witness :
    (st16.timing_offsets = [] ∧ p0.time = pktV.stamp) ∧
      stV32.timing_offsets ≠ [] ∧
      ∃ b s laser, vlpPointAt stV32 pktV b s laser = some p0 ∧
        p0.time = pktV.stamp + ((stV32.timing_offsets.getD b []).getD s 0) := by
  have h := c8_timing_offsets VLP_16_SPEC "" cfg0 (fun _ => c0) zeroTab zeroTab
  have h2 := h.2 32 (by norm_num)
  refine ⟨⟨?_, h.1.2 pktV p0 (by rw [stateFromSetup_16_eq]; exact p0_mem_st16_pktV)⟩,
    h2.1, h2.2 pktV p0 p0_mem_stV32_pktV⟩
  have := h.1.1
  rw [stateFromSetup_16_eq] at this
  exact this

theorem mapCalibration_config (f : LaserCorrection → LaserCorrection) (st : DecoderState) :
    (mapCalibration f st).config = st.config := rfl

theorem mapCalibration_vlp_spec (f : LaserCorrection → LaserCorrection) (st : DecoderState) :
    (mapCalibration f st).vlp_spec = st.vlp_spec := rfl

theorem mapCalibration_is_vlp (f : LaserCorrection → LaserCorrection) (st : DecoderState) :
    (mapCalibration f st).is_vlp = st.is_vlp := rfl

theorem mapCalibration_cos_rot_table (f : LaserCorrection → LaserCorrection)
    (st : DecoderState) : (mapCalibration f st).cos_rot_table = st.cos_rot_table := rfl

theorem mapCalibration_sin_rot_table (f : LaserCorrection → LaserCorrection)
    (st : DecoderState) : (mapCalibration f st).sin_rot_table = st.sin_rot_table := rfl

theorem mapCalibration_timing_offsets (f : LaserCorrection → LaserCorrection)
    (st : DecoderState) : (mapCalibration f st).timing_offsets = st.timing_offsets := rfl

theorem mapCalibration_calibration (f : LaserCorrection → LaserCorrection)
    (st : DecoderState) (n : ℕ) :
    (mapCalibration f st).calibration n = f (st.calibration n) := rfl

theorem distanceCorrXY_twoPtOff (c : LaserCorrection) (xx yy : ℚ) :
    distanceCorrXY (twoPtOff c) xx yy = (0, 0) := by
  simp [distanceCorrXY, twoPtOff]

theorem distanceCorrXY_twoPtOnZero (c : LaserCorrection) (xx yy : ℚ) :
    distanceCorrXY (twoPtOnZero c) xx yy = (0, 0) := by
  simp only [distanceCorrXY, twoPtOnZero, if_true]
  rw [Prod.mk.injEq]
  constructor <;> ring

theorem positionXYZ_twoPt (c : LaserCorrection) (cosAz sinAz distance : ℚ) :
    positionXYZ (twoPtOff c) cosAz sinAz distance =
      positionXYZ (twoPtOnZero c) cosAz sinAz distance := by
  simp only [positionXYZ]
  rw [distanceCorrXY_twoPtOff, distanceCorrXY_twoPtOnZero]
  simp [twoPtOff, twoPtOnZero]

theorem intensityVlp_twoPt (c : LaserCorrection) (rawI d : ℕ) :
    intensityVlp (twoPtOff c) rawI d = intensityVlp (twoPtOnZero c) rawI d := by
  simp [intensityVlp, clampIntensity, focalOffset, twoPtOff, twoPtOnZero]

theorem intensityLegacy_twoPt (c : LaserCorrection) (rawI d : ℕ) :
    intensityLegacy (twoPtOff c) rawI d = intensityLegacy (twoPtOnZero c) rawI d := by
  simp [intensityLegacy, clampIntensity, focalOffset, twoPtOff, twoPtOnZero]

theorem vlpPointAt_twoPt (st : DecoderState) (pkt : VelodynePacket) (b s laser : ℕ) :
    vlpPointAt (mapCalibration twoPtOff st) pkt b s laser =
      vlpPointAt (mapCalibration twoPtOnZero st) pkt b s laser := by
  simp only [vlpPointAt, mapCalibration_config, mapCalibration_vlp_spec,
    mapCalibration_cos_rot_table, mapCalibration_sin_rot_table,
    mapCalibration_timing_offsets, mapCalibration_calibration,
    positionXYZ_twoPt, intensityVlp_twoPt]
  simp [twoPtOff, twoPtOnZero]

theorem vlpBlockPoints_twoPt (st : DecoderState) (pkt : VelodynePacket) (b : ℕ) :
    vlpBlockPoints (mapCalibration twoPtOff st) pkt b =
      vlpBlockPoints (mapCalibration twoPtOnZero st) pkt b := by
  simp only [vlpBlockPoints, mapCalibration_vlp_spec]
  congr 1
  funext s
  congr 1
  funext laser
  exact vlpPointAt_twoPt st pkt b s laser

theorem unpackVlpAux_twoPt (st : DecoderState) (pkt : VelodynePacket) :
    ∀ fuel j, unpackVlpAux (mapCalibration twoPtOff st) pkt fuel j =
      unpackVlpAux (mapCalibration twoPtOnZero st) pkt fuel j := by
  intro fuel
  induction fuel with
  | zero => intro j; rfl
  | succ n ih =>
    intro j
    rw [unpackVlpAux, unpackVlpAux]
    by_cases hj : headerOf pkt j ≠ UPPER_BANK
    · rw [if_pos hj, if_pos hj]
    · rw [if_neg hj, if_neg hj, vlpBlockPoints_twoPt, ih (j + 1)]

theorem legacyPointAt_twoPt (st : DecoderState) (pkt : VelodynePacket) (b j : ℕ) :
    legacyPointAt (mapCalibration twoPtOff st) pkt b j =
      legacyPointAt (mapCalibration twoPtOnZero st) pkt b j := by
  simp only [legacyPointAt, mapCalibration_config, mapCalibration_cos_rot_table,
    mapCalibration_sin_rot_table, mapCalibration_calibration,
    positionXYZ_twoPt, intensityLegacy_twoPt]
  simp [twoPtOff, twoPtOnZero]

theorem legacyBlockPoints_twoPt (st : DecoderState) (pkt : VelodynePacket) (b : ℕ) :
    legacyBlockPoints (mapCalibration twoPtOff st) pkt b =
      legacyBlockPoints (mapCalibration twoPtOnZero st) pkt b := by
  simp only [legacyBlockPoints]
  congr 1
  funext j
  exact legacyPointAt_twoPt st pkt b j

/-- C9 (confirmed): decoding with a calibration whose two-point
correction is unavailable produces exactly the same output (points and
return value) as decoding with it available but with both reference
corrections equal to the base distance correction, in both paths. -/
theorem c9_two_pt_zero_equivalence (st : DecoderState) (pkt : VelodynePacket) :
    unpack_vlp (mapCalibration twoPtOff st) pkt =
        unpack_vlp (mapCalibration twoPtOnZero st) pkt ∧
      unpackAndAdd (mapCalibration twoPtOff st) pkt =
        unpackAndAdd (mapCalibration twoPtOnZero st) pkt := by
  have hv : unpack_vlp (mapCalibration twoPtOff st) pkt =
      unpack_vlp (mapCalibration twoPtOnZero st) pkt := by
    rw [unpack_vlp, unpack_vlp]
    exact unpackVlpAux_twoPt st pkt BLOCKS_PER_PACKET 0
  refine ⟨hv, ?_⟩
  rw [unpackAndAdd, unpackAndAdd, mapCalibration_is_vlp, mapCalibration_is_vlp]
  by_cases h : st.is_vlp = true
  · rw [if_pos h, if_pos h]
    exact hv
  · rw [if_neg h, if_neg h]
    have hb : ∀ b, legacyBlockPoints (mapCalibration twoPtOff st) pkt b =
        legacyBlockPoints (mapCalibration twoPtOnZero st) pkt b :=
      legacyBlockPoints_twoPt st pkt
    simp only [hb]

theorem pktC10_az_eval : vlpAzimuthCorrected VLP_16_SPEC pktC10 11 1 0 = -14768 := by
  rw [vlpAzimuthCorrected, azimuthDiff, if_neg (by norm_num [BLOCKS_PER_PACKET])]
  have hld : lastDiffAt pktC10 11 = (blockDiffRaw pktC10 10 : ℚ) := by
    rw [show (11 : ℕ) = 10 + 1 from rfl, lastDiffAt, if_pos (by norm_num [BLOCKS_PER_PACKET])]
  have hbd : blockDiffRaw pktC10 10 = -29535 := by decide
  have hrot : rotationOf pktC10 11 = 0 := by decide
  rw [hld, hbd, hrot]
  norm_num [vlpFiringOffset, VLP_16_SPEC, roundQ, cRem]

/-- C10 counterexample: a packet whose rotation drops from 65535 to 0
between blocks 10 and 11 gives the final block a corrected azimuth of
-14768: not in [0, 36000), and a wrapping field-of-view window
(27000..9000) accepts it, so the trig lookup would be reached with a
negative index. -/
theorem c10_counterexample :
    vlpAzimuthCorrected VLP_16_SPEC pktC10 11 1 0 = -14768 ∧
      ¬(0 ≤ vlpAzimuthCorrected VLP_16_SPEC pktC10 11 1 0) ∧
      azimuthInFov 27000 9000 (vlpAzimuthCorrected VLP_16_SPEC pktC10 11 1 0) = true := by
  refine ⟨pktC10_az_eval, ?_, ?_⟩
  · rw [pktC10_az_eval]
    norm_num
  · rw [pktC10_az_eval]
    decide

/-- C10 (corrected): the VLP corrected azimuth lies in [0, 36000)
whenever every computed inter-block difference is nonnegative (as it is
for rotation values below 36000) and the profile durations are
nonnegative — but not for every input packet, since C's `%` preserves
the sign of a negative interpolated azimuth; the legacy path indexes
the tables with the raw rotation, in bounds exactly when it is below
36000. -/
theorem c10_trig_index_bounds :
    (∀ (sp : VlpSpec) (pkt : VelodynePacket) (b s laser : ℕ),
        0 ≤ sp.firing_duration → 0 ≤ sp.firing_seq_duration → 0 ≤ sp.block_duration →
        (∀ i, i < BLOCKS_PER_PACKET - 1 → 0 ≤ blockDiffRaw pkt i) →
        0 ≤ vlpAzimuthCorrected sp pkt b s laser ∧
          vlpAzimuthCorrected sp pkt b s laser < 36000) ∧
    (∀ pkt b, legacyRotIndex pkt b = (rotationOf pkt b : ℤ) ∧
      ((rotationOf pkt b : ℤ) < 36000 →
        0 ≤ legacyRotIndex pkt b ∧ legacyRotIndex pkt b < 36000)) := by
  constructor
  · intro sp pkt b s laser hfd hfsd hbd hdiff
    rw [vlpAzimuthCorrected]
    refine cRem_bounds (roundQ_nonneg ?_) (by norm_num)
    have h1 : 0 ≤ azimuthDiff pkt b := azimuthDiff_nonneg pkt hdiff b
    have h2 : (0 : ℚ) ≤ (rotationOf pkt b : ℚ) := Nat.cast_nonneg _
    have h0 : (0 : ℚ) ≤ vlpFiringOffset sp laser := by
      rw [vlpFiringOffset]
      exact mul_nonneg (Nat.cast_nonneg _) hfd
    have h3 : (0 : ℚ) ≤ vlpFiringOffset sp laser + (s : ℚ) * sp.firing_seq_duration :=
      add_nonneg h0 (mul_nonneg (Nat.cast_nonneg _) hfsd)
    exact add_nonneg h2 (div_nonneg (mul_nonneg h1 h3) hbd)
  · intro pkt b
    exact ⟨rfl, fun h => ⟨Int.natCast_nonneg _, h⟩⟩

/-- C10 witness: the bounds at a well-formed packet and a legacy block. -/
theorem c10_witness :
    (0 ≤ vlpAzimuthCorrected VLP_16_SPEC pkt0 0 0 0 ∧
        vlpAzimuthCorrected VLP_16_SPEC pkt0 0 0 0 < 36000) ∧
      legacyRotIndex pkt0 0 = (rotationOf pkt0 0 : ℤ) ∧
      (0 ≤ legacyRotIndex pkt0 0 ∧ legacyRotIndex pkt0 0 < 36000) := by
  refine ⟨c10_trig_index_bounds.1 VLP_16_SPEC pkt0 0 0 0 (by norm_num [VLP_16_SPEC])
      (by norm_num [VLP_16_SPEC]) (by norm_num [VLP_16_SPEC]) (by decide), ?_, ?_⟩
  · exact (c10_trig_index_bounds.2 pkt0 0).1
  · exact (c10_trig_index_bounds.2 pkt0 0).2 (by decide)

end Velodyne
